import Mathlib

/-!
Verification of `src/recurrent/recurrence_rule.py` (recurrent-plus).

Shallow embedding conventions:
* A `datetime` is modelled as `DateTime`: a wall-clock instant in whole seconds
  together with an optional UTC offset (`none` = naive, `some off` = aware with
  fixed offset `off` seconds east of UTC). Calendar dates are modelled as day
  numbers (floor of seconds / 86400), matching Python date ordering/arithmetic.
* `dateutil.rrule` objects are modelled structurally: an `Rrule` carries the
  private fields the source reads (`_freq`, `_interval`, `_count`, `_until`,
  the `by*` lists, `_dtstart`, `_bysetpos`); an `Rruleset` carries `_rrule`,
  `_rdate`, `_exdate`.  The occurrence stream produced by the external
  expansion engine is modelled as a list of timestamps supplied as a parameter.
* Strings are `List Char`; Python's `in` on strings is list-infix containment.
-/

/-- dateutil frequency constant YEARLY. -/
def YEARLY : Nat := 0

/-- dateutil frequency constant MONTHLY. -/
def MONTHLY : Nat := 1

/-- dateutil frequency constant WEEKLY. -/
def WEEKLY : Nat := 2

/-- dateutil frequency constant DAILY. -/
def DAILY : Nat := 3

/-- dateutil frequency constant HOURLY. -/
def HOURLY : Nat := 4

/-- dateutil frequency constant MINUTELY. -/
def MINUTELY : Nat := 5

/-- dateutil frequency constant SECONDLY. -/
def SECONDLY : Nat := 6

/-- dateutil `FREQNAMES` table. -/
def FREQNAMES : List String :=
  ["YEARLY", "MONTHLY", "WEEKLY", "DAILY", "HOURLY", "MINUTELY", "SECONDLY"]

/-- `_TIME_FREQS = {HOURLY, MINUTELY, SECONDLY}` (recurrence_rule.py line 21). -/
def TIME_FREQS : List Nat := [HOURLY, MINUTELY, SECONDLY]

/-- A Python `datetime`: wall-clock seconds plus optional fixed UTC offset
(seconds east of UTC); `tz = none` models a naive datetime. -/
structure DateTime where
  wall : Int
  tz : Option Int
deriving DecidableEq, Repr

/-- Python `datetime.date()` as a day number: floor division of the wall clock
by 86400 (no timezone conversion, exactly as `.date()` behaves). -/
def DateTime.date (d : DateTime) : Int := d.wall / 86400

/-- Model of a `dateutil.rrule.rrule` restricted to the private fields the
source reads.  `freq` is the integer frequency constant; `by*` fields are the
(possibly empty) tuples dateutil stores; `count`, `until`, `dtstart` are
`None`-able. -/
structure Rrule where
  freq : Nat
  interval : Int
  count : Option Int
  until_ : Option DateTime
  byweekday : List Int
  bymonthday : List Int
  bymonth : List Int
  byhour : List Int
  byminute : List Int
  bysecond : List Int
  dtstart : Option DateTime
  bysetpos : List Int
deriving DecidableEq, Repr

/-- Model of a `dateutil.rrule.rruleset`: its `_rrule` list of component rules
plus explicit `_rdate` inclusion and `_exdate` exclusion datetimes. -/
structure Rruleset where
  rrule : List Rrule
  rdate : List DateTime
  exdate : List DateTime
deriving DecidableEq, Repr

/-- The argument type of `is_daily_or_greater`: a single rrule or an rruleset
(the source's `rrule | rruleset` union; the `TypeError` branch for any other
type cannot arise in the typed embedding). -/
inductive RRuleObj where
  | single (r : Rrule)
  | ruleset (rs : Rruleset)
deriving DecidableEq, Repr

/-- `_rule_has_time_components` (recurrence_rule.py lines 24-34): the
BYHOUR/BYMINUTE/BYSECOND inspection is commented out in the source, so only
`_freq in _TIME_FREQS` is checked. -/
def rule_has_time_components (rule : Rrule) : Bool :=
  decide (rule.freq ∈ TIME_FREQS)

/-- `is_daily_or_greater` (recurrence_rule.py lines 37-56): a single rrule is
daily-or-greater iff it has no time components; an rruleset is daily-or-greater
iff no rule in its `_rrule` list has time components (RDATEs are not examined).
-/
def is_daily_or_greater : RRuleObj → Bool
  | .single r => ! rule_has_time_components r
  | .ruleset rs => ! rs.rrule.any rule_has_time_components

/-- The constituent sub-rules of a parsed model, in the spec's sense: a single
rule is its own sole constituent; a composite holds its `_rrule` list. -/
def constituent_sub_rules : RRuleObj → List Rrule
  | .single r => [r]
  | .ruleset rs => rs.rrule

/-- Replace the explicit inclusion dates of a model (no-op on a single rule,
which carries none). -/
def with_rdates : RRuleObj → List DateTime → RRuleObj
  | .single r, _ => .single r
  | .ruleset rs, ds => .ruleset { rs with rdate := ds }

/-- `is_daily_or_greater` decides exactly the presence of a time-granular
constituent sub-rule (shared helper). -/
theorem is_daily_or_greater_eq_false_iff (obj : RRuleObj) :
    is_daily_or_greater obj = false ↔
      ∃ r ∈ constituent_sub_rules obj, r.freq ∈ TIME_FREQS := by
  cases obj with
  | single r =>
      simp [is_daily_or_greater, constituent_sub_rules, rule_has_time_components]
  | ruleset rs =>
      simp [is_daily_or_greater, constituent_sub_rules, rule_has_time_components,
        List.any_eq_true]

/-- Claim C1: for every parsed rule model, `is_daily_or_greater` returns
`false` iff at least one constituent sub-rule's declared frequency is hourly,
minutely or secondly; and explicit inclusion dates attached to a composite
model never change (in particular never falsify) the result. -/
theorem is_daily_or_greater_iff_no_time_subrule (obj : RRuleObj) :
    (is_daily_or_greater obj = false ↔
      ∃ r ∈ constituent_sub_rules obj, r.freq ∈ TIME_FREQS) ∧
    ∀ ds : List DateTime, is_daily_or_greater (with_rdates obj ds) =
      is_daily_or_greater obj := by
  refine ⟨is_daily_or_greater_eq_false_iff obj, ?_⟩
  intro ds
  cases obj with
  | single r => rfl
  | ruleset rs => rfl

/-- Claim C9: a sub-rule whose declared frequency is daily or coarser is
date-granular regardless of any explicit BYHOUR/BYMINUTE/BYSECOND fields:
only the declared frequency governs the decision. -/
theorem is_daily_or_greater_ignores_by_time_fields (r : Rrule)
    (h : r.freq ∉ TIME_FREQS) (bh bm bs : List Int) :
    is_daily_or_greater
      (.single { r with byhour := bh, byminute := bm, bysecond := bs }) = true := by
  simp [is_daily_or_greater, rule_has_time_components]
  exact h

/-- A daily rule with explicit BYHOUR/BYMINUTE/BYSECOND overrides, used as a
concrete witness input. -/
def dailyWithByHour : Rrule :=
  { freq := DAILY, interval := 1, count := none, until_ := none,
    byweekday := [], bymonthday := [], bymonth := [],
    byhour := [9], byminute := [30], bysecond := [0],
    dtstart := none, bysetpos := [] }

/-- Witness for C9: a DAILY rule carrying BYHOUR=[9], BYMINUTE=[30],
BYSECOND=[0] still passes the granularity check. -/
theorem is_daily_or_greater_ignores_by_time_fields_witness :
    is_daily_or_greater
      (.single
        { dailyWithByHour with byhour := [9], byminute := [30], bysecond := [0] })
      = true :=
  is_daily_or_greater_ignores_by_time_fields dailyWithByHour (by decide) [9] [30] [0]

/-- The error raised by the `__post_init__` granularity gate (lines 127-130):
a `ValueError("rrules must only specify recurring dates, not recurring times")`,
the spec's GranularityError. -/
inductive ConstructionError where
  | granularity
deriving DecidableEq, Repr

/-- The validation tail of `RecurrenceRule.__post_init__` (lines 127-133),
after the external engines have produced the parsed model `rr` and its
occurrence stream `occs` (the stream is the sequence `self.rr` enumerates;
slicing `self.rr[:num_preview]` is `occs.take num_preview`).  On the error
branch nothing is produced — no partially built object escapes. -/
def post_init_validate {α : Type} (daily_or_greater_only : Bool) (rr : RRuleObj)
    (occs : List α) (num_preview : Nat) : Except ConstructionError (List α) :=
  if daily_or_greater_only && ! is_daily_or_greater rr then
    .error .granularity
  else
    .ok (occs.take num_preview)

/-- Claim C2: on every successful construction, `preview_dts` has length
`min num_preview (occurrences available)` and is strictly ascending, given
that the external expansion engine's occurrence stream is strictly ascending
(its documented contract); a short stream yields a short list, never padding
and never an error. -/
theorem preview_dts_length_and_ascending (flag : Bool) (rr : RRuleObj)
    (occs : List Int) (n : Nat) (pv : List Int)
    (hasc : occs.Pairwise (· < ·))
    (hok : post_init_validate flag rr occs n = .ok pv) :
    pv.length = min n occs.length ∧ pv.Pairwise (· < ·) := by
  unfold post_init_validate at hok
  split at hok
  · exact absurd hok (by simp)
  · cases hok
    exact ⟨List.length_take _ _, hasc.sublist (List.take_sublist _ _)⟩

/-- Witness for C2: a three-element strictly ascending stream previews with
`num_preview = 5` to exactly those three timestamps, in order. -/
theorem preview_dts_length_and_ascending_witness :
    ([(0 : Int), 86400, 172800]).length = min 5 ([(0 : Int), 86400, 172800]).length ∧
    ([(0 : Int), 86400, 172800]).Pairwise (· < ·) :=
  preview_dts_length_and_ascending false (.single dailyWithByHour)
    [0, 86400, 172800] 5 [0, 86400, 172800] (by decide) (by rfl)

/-- A model with an HOURLY constituent, the witness input for the
granularity gate. -/
def hourlyRule : Rrule :=
  { freq := HOURLY, interval := 1, count := none, until_ := none,
    byweekday := [], bymonthday := [], bymonth := [],
    byhour := [], byminute := [], bysecond := [],
    dtstart := none, bysetpos := [] }

/-- Claim C6: whenever the parsed model holds an hourly/minutely/secondly
sub-rule, construction with `daily_or_greater_only = true` fails with the
GranularityError and produces nothing, while with
`daily_or_greater_only = false` the granularity check never makes
construction fail. -/
theorem granularity_gate (rr : RRuleObj) (occs : List Int) (n : Nat)
    (h : ∃ r ∈ constituent_sub_rules rr, r.freq ∈ TIME_FREQS) :
    post_init_validate true rr occs n = .error .granularity ∧
    post_init_validate false rr occs n = .ok (occs.take n) := by
  have hfalse : is_daily_or_greater rr = false :=
    (is_daily_or_greater_eq_false_iff rr).mpr h
  constructor
  · simp [post_init_validate, hfalse]
  · simp [post_init_validate]

/-- Witness for C6: an hourly rule is rejected under the policy and accepted
(with its preview produced) without it. -/
theorem granularity_gate_witness :
    post_init_validate true (.single hourlyRule) ([] : List Int) 5 =
      .error .granularity ∧
    post_init_validate false (.single hourlyRule) ([] : List Int) 5 = .ok [] :=
  granularity_gate (.single hourlyRule) [] 5 (by decide)

/-- The UTC-normalized calendar date of the first preview datetime
(recurrence_rule.py lines 147-150): an aware datetime is converted to UTC
before taking its date (`astimezone(UTC).date()`); a naive one is used as-is.
-/
def first_occurrence_date (d : DateTime) : Int :=
  match d.tz with
  | some off => (d.wall - off) / 86400
  | none => d.wall / 86400

/-- The two ways `adjust_original_datetime` can raise: reading
`preview_dts[0]` of an empty list (`IndexError`), and the negative-delta
`AssertionError` (the spec's ConsistencyError, line 161). -/
inductive AdjustError where
  | indexError
  | consistencyError
deriving DecidableEq, Repr

/-- `RecurrenceRule.adjust_original_datetime` (lines 136-164) as a pure
function of `preview_dts`, `start` and `end`: compare `start.date()` with the
(UTC-normalized) date of `preview_dts[0]`; when unequal, shift both inputs by
the whole-day delta, failing on a negative delta.  The rule object itself is
neither read further nor written. -/
def adjust_original_datetime (preview_dts : List DateTime)
    (start end_ : DateTime) : Except AdjustError (DateTime × DateTime) :=
  match preview_dts with
  | [] => .error .indexError
  | p0 :: _ =>
    let first_date := first_occurrence_date p0
    let start_date := start.date
    if start_date = first_date then
      .ok (start, end_)
    else
      let delta := first_date - start_date
      if delta < 0 then
        .error .consistencyError
      else
        .ok ({ start with wall := start.wall + delta * 86400 },
             { end_ with wall := end_.wall + delta * 86400 })

/-- Shifting a datetime by a whole number of days shifts its date by that
number of days (shared helper for the reconciliation proofs). -/
theorem date_add_days (w k : Int) : (w + k * 86400) / 86400 = w / 86400 + k :=
  Int.add_mul_ediv_right w k (by norm_num)

/-- Claim C4: reconciliation is idempotent (and, being modelled as a pure
function of `(preview_dts, start, end)`, mutates nothing): whenever it
succeeds with pair `(s', e')`, running it again on `(s', e')` with the same
preview returns `(s', e')` unchanged. -/
theorem adjust_original_datetime_idempotent (preview : List DateTime)
    (s e s' e' : DateTime)
    (h : adjust_original_datetime preview s e = .ok (s', e')) :
    adjust_original_datetime preview s' e' = .ok (s', e') := by
  cases preview with
  | nil => exact absurd h (by simp [adjust_original_datetime])
  | cons p0 rest =>
    simp only [adjust_original_datetime] at h ⊢
    by_cases heq : s.date = first_occurrence_date p0
    · rw [if_pos heq] at h
      simp only [Except.ok.injEq, Prod.mk.injEq] at h
      obtain ⟨h1, h2⟩ := h
      subst h1; subst h2
      rw [if_pos heq]
    · rw [if_neg heq] at h
      by_cases hneg : first_occurrence_date p0 - s.date < 0
      · rw [if_pos hneg] at h
        exact absurd h (by simp)
      · rw [if_neg hneg] at h
        simp only [Except.ok.injEq, Prod.mk.injEq] at h
        obtain ⟨h1, h2⟩ := h
        subst h1; subst h2
        have hd : ({ s with
            wall := s.wall + (first_occurrence_date p0 - s.date) * 86400 } :
              DateTime).date = first_occurrence_date p0 := by
          show (s.wall + (first_occurrence_date p0 - s.date) * 86400) / 86400 =
            first_occurrence_date p0
          rw [date_add_days]
          show s.date + (first_occurrence_date p0 - s.date) =
            first_occurrence_date p0
          omega
        rw [if_pos hd]

/-- Witness for C4: a start one day before the first occurrence is shifted
forward one day; re-running reconciliation on the shifted pair is a no-op. -/
theorem adjust_original_datetime_idempotent_witness :
    adjust_original_datetime [⟨86400, none⟩] ⟨86400, none⟩ ⟨90000, none⟩ =
      .ok (⟨86400, none⟩, ⟨90000, none⟩) :=
  adjust_original_datetime_idempotent [⟨86400, none⟩] ⟨0, none⟩ ⟨3600, none⟩
    ⟨86400, none⟩ ⟨90000, none⟩ (by rfl)

/-- Claim C5: whenever the (UTC-normalized) date of the first preview
occurrence precedes `start`'s date, reconciliation fails fatally with the
ConsistencyError and returns no shifted pair. -/
theorem adjust_original_datetime_negative_delta_fails (p0 : DateTime)
    (rest : List DateTime) (s e : DateTime)
    (h : first_occurrence_date p0 < s.date) :
    adjust_original_datetime (p0 :: rest) s e = .error .consistencyError := by
  have hne : ¬ s.date = first_occurrence_date p0 := by omega
  have hneg : first_occurrence_date p0 - s.date < 0 := by omega
  simp only [adjust_original_datetime]
  rw [if_neg hne, if_pos hneg]

/-- Witness for C5: a first occurrence on day 0 against a start on day 1
raises the ConsistencyError. -/
theorem adjust_original_datetime_negative_delta_fails_witness :
    adjust_original_datetime [⟨0, none⟩] ⟨86400, none⟩ ⟨90000, none⟩ =
      .error .consistencyError :=
  adjust_original_datetime_negative_delta_fails ⟨0, none⟩ [] ⟨86400, none⟩
    ⟨90000, none⟩ (by decide)

/-- Claim C10: `adjust_original_datetime` reads `preview_dts[0]`
unconditionally, so with an empty preview (e.g. `num_preview = 0`, or a rule
producing no occurrences) every call raises an IndexError instead of
returning a pair — a non-empty preview is an implicit precondition. -/
theorem adjust_original_datetime_empty_preview (s e : DateTime) :
    adjust_original_datetime [] s e = .error .indexError := rfl


/-- The two values of `input_form` (recurrence_rule.py lines 80, 89, 113). -/
inductive InputForm where
  | rrule
  | natural_language
deriving DecidableEq, Repr

/-- Outcome of the form-detection branch of `__post_init__`: the recorded
`input_form` tag and whether the natural-language engine
(`RecurringEvent(...).parse`) was invoked on that branch. -/
structure FormDetection where
  input_form : InputForm
  nl_engine_invoked : Bool
deriving DecidableEq, Repr

/-- The frequency-declaration token tested by form detection. -/
def FREQ_token : List Char := "FREQ=".data

/-- Python's substring operator `in`, as decidable list-infix containment. -/
def contains_sub (pat s : List Char) : Bool := decide (pat <:+: s)

/-- Form detection in `__post_init__` (lines 86-113): the test is
`"FREQ=" in input_str.upper()`; on the raw-rule branch the natural-language
engine is never touched, otherwise it is always invoked. -/
def detect_input_form (input_str : List Char) : FormDetection :=
  if contains_sub FREQ_token (input_str.map Char.toUpper) then
    { input_form := .rrule, nl_engine_invoked := false }
  else
    { input_form := .natural_language, nl_engine_invoked := true }

/-- Claim C7: an input containing a frequency-declaration token
(case-insensitively) takes the raw-rule branch with the engine untouched;
any other input is tagged natural-language (and goes to the engine). -/
theorem detect_input_form_spec (input_str : List Char) :
    (FREQ_token <:+: input_str.map Char.toUpper →
      detect_input_form input_str =
        { input_form := .rrule, nl_engine_invoked := false }) ∧
    (¬ FREQ_token <:+: input_str.map Char.toUpper →
      detect_input_form input_str =
        { input_form := .natural_language, nl_engine_invoked := true }) := by
  constructor
  · intro h
    simp [detect_input_form, contains_sub, decide_eq_true h]
  · intro h
    simp [detect_input_form, contains_sub, decide_eq_false h]

/-- Witness for C7: a lowercase formal rule string is detected as raw rule
without invoking the engine; a plain phrase goes to the engine. -/
theorem detect_input_form_spec_witness :
    detect_input_form "freq=daily".data =
      { input_form := .rrule, nl_engine_invoked := false } ∧
    detect_input_form "every day".data =
      { input_form := .natural_language, nl_engine_invoked := true } :=
  ⟨(detect_input_form_spec "freq=daily".data).1 (by decide),
   (detect_input_form_spec "every day".data).2 (by decide)⟩

/-- Split a character list at newline characters (helper for `splitlines`):
`splitOnNewline "a\nb" = ["a", "b"]`, with an empty trailing segment kept. -/
def splitOnNewline : List Char → List (List Char)
  | [] => [[]]
  | c :: rest =>
    let r := splitOnNewline rest
    if c = '\n' then [] :: r
    else (c :: r.headD []) :: r.tail

/-- Python `str.splitlines()` restricted to `\n` separators (the only
separator in the engine's RFC rule text): no trailing empty line for a
trailing newline, and the empty string yields no lines. -/
def splitlines (s : List Char) : List (List Char) :=
  match s with
  | [] => []
  | _ =>
    let parts := splitOnNewline s
    if s.getLast? = some '\n' then parts.dropLast else parts

/-- The start-marker token stripped from canonical lines. -/
def DTSTART_token : List Char := "DTSTART".data

/-- The end-marker token stripped from canonical lines. -/
def DTEND_token : List Char := "DTEND".data

/-- The `canonical` computation of `__post_init__` (lines 116-118):
`[s for s in rstr.splitlines() if "DTSTART" not in s and "DTEND" not in s]`.
-/
def canonical_lines (rstr : List Char) : List (List Char) :=
  (splitlines rstr).filter
    (fun s => ! contains_sub DTSTART_token s && ! contains_sub DTEND_token s)

/-- Claim C3: no canonical line contains a start- or end-marker, and
`canonical` is exactly the ordered lines of the engine's rule text with every
marker-bearing line removed (an order-preserving sublist selected by the
marker-free predicate). -/
theorem canonical_lines_no_markers (rstr : List Char) :
    (∀ l ∈ canonical_lines rstr,
      ¬ DTSTART_token <:+: l ∧ ¬ DTEND_token <:+: l) ∧
    canonical_lines rstr = (splitlines rstr).filter
      (fun l => decide (¬ DTSTART_token <:+: l ∧ ¬ DTEND_token <:+: l)) ∧
    (canonical_lines rstr).Sublist (splitlines rstr) := by
  refine ⟨?_, ?_, List.filter_sublist _⟩
  · intro l hl
    have hmem := List.mem_filter.mp hl
    have hb := hmem.2
    constructor
    · intro hin
      simp [contains_sub, decide_eq_true hin] at hb
    · intro hin
      simp [contains_sub, decide_eq_true hin] at hb
  · unfold canonical_lines
    refine List.filter_congr ?_
    intro l _
    by_cases h1 : DTSTART_token <:+: l
    · simp [contains_sub, decide_eq_true h1]
    · by_cases h2 : DTEND_token <:+: l
      · simp [contains_sub, decide_eq_true h2, decide_eq_false h1]
      · simp [contains_sub, decide_eq_false h1, decide_eq_false h2, h1, h2]

/-- JSON-like values produced by the serialization helpers.  `tup` is a Python
tuple — distinct from `arr` (a Python list) exactly as the two are distinct
Python values. -/
inductive JVal where
  | str (s : String)
  | int (i : Int)
  | arr (xs : List JVal)
  | tup (xs : List JVal)
  | obj (fields : List (String × JVal))

/-- `datetime.isoformat()`, abstracted to an injective rendering of the model
datetime; the claims under verification depend only on which entries carry a
rendered timestamp, never on the concrete ISO text. -/
def isoformat (d : DateTime) : String :=
  toString d.wall ++
    (match d.tz with | none => "" | some off => "+" ++ toString off)

/-- `rrule_to_dict` (recurrence_rule.py lines 167-188), step one: the full
key/value table `d`, with `None` for absent or empty fields (Python truthiness
on `_until`, the `by*` tuples and `_dtstart`). -/
def rrule_to_dict_table (rule : Rrule) : List (String × Option JVal) :=
  [("freq", some (.str (FREQNAMES.getD rule.freq ""))),
   ("interval", some (.int rule.interval)),
   ("count", rule.count.map .int),
   ("until", rule.until_.map (fun u => .str (isoformat u))),
   ("byweekday",
     if rule.byweekday = [] then none
     else some (.arr (rule.byweekday.map .int))),
   ("bymonthday",
     if rule.bymonthday = [] then none
     else some (.arr (rule.bymonthday.map .int))),
   ("bymonth",
     if rule.bymonth = [] then none
     else some (.arr (rule.bymonth.map .int))),
   ("byhour",
     if rule.byhour = [] then none
     else some (.arr (rule.byhour.map .int))),
   ("byminute",
     if rule.byminute = [] then none
     else some (.arr (rule.byminute.map .int))),
   ("bysecond",
     if rule.bysecond = [] then none
     else some (.arr (rule.bysecond.map .int))),
   ("dtstart", rule.dtstart.map (fun u => .str (isoformat u))),
   ("bysetpos",
     if rule.bysetpos = [] then none
     else some (.arr (rule.bysetpos.map .int)))]

/-- `rrule_to_dict`, step two: drop every `None` entry — the comprehension
`\x7bk: v for k, v in d.items() if v is not None\x7d` (line 188). -/
def rrule_to_dict (rule : Rrule) : List (String × JVal) :=
  (rrule_to_dict_table rule).filterMap (fun kv => kv.2.map (fun v => (kv.1, v)))

/-- `rruleset_to_serializable` (recurrence_rule.py lines 191-204), faithfully
including the trailing comma inside the parenthesized `exdates` expression
(line 203), which makes that value a one-element Python tuple wrapping the
list rather than the list itself. -/
def rruleset_to_serializable (rrs : Rruleset) : List (String × JVal) :=
  [("rrules", .arr (rrs.rrule.map (fun r => .obj (rrule_to_dict r)))),
   ("rdates",
     if rrs.rdate = [] then .arr []
     else .arr (rrs.rdate.map (fun d => .str (isoformat d)))),
   ("exdates",
     .tup [if rrs.exdate = [] then .arr []
           else .arr (rrs.exdate.map (fun d => .str (isoformat d)))])]

/-- The twelve sub-rule serialization keys named by the spec. -/
def allowed_keys : List String :=
  ["freq", "interval", "count", "until", "byweekday", "bymonthday", "bymonth",
   "byhour", "byminute", "bysecond", "dtstart", "bysetpos"]

/-- Every emitted entry of `rrule_to_dict` stems from a table entry with the
same key whose value was present (shared helper). -/
theorem rrule_to_dict_key_mem (r : Rrule) (kv : String × JVal)
    (hkv : kv ∈ rrule_to_dict r) :
    ∃ a ∈ rrule_to_dict_table r, a.1 = kv.1 ∧ a.2 = some kv.2 := by
  unfold rrule_to_dict at hkv
  obtain ⟨a, ha, hfa⟩ := List.mem_filterMap.mp hkv
  obtain ⟨v, hv, hkv2⟩ := Option.map_eq_some'.mp hfa
  exact ⟨a, ha, by rw [← hkv2], by rw [hv, ← hkv2]⟩

/-- The sub-rule half of the serialization contract does hold: every emitted
key is one of the twelve, and absent/empty fields are omitted entirely
(shown here for `count`, `until`, `byweekday`; the remaining fields are
symmetric). -/
theorem rrule_to_dict_keys (r : Rrule) :
    (∀ kv ∈ rrule_to_dict r, kv.1 ∈ allowed_keys) ∧
    (r.count = none → ∀ kv ∈ rrule_to_dict r, kv.1 ≠ "count") ∧
    (r.until_ = none → ∀ kv ∈ rrule_to_dict r, kv.1 ≠ "until") ∧
    (r.byweekday = [] → ∀ kv ∈ rrule_to_dict r, kv.1 ≠ "byweekday") := by
  refine ⟨?_, ?_, ?_, ?_⟩
  · intro kv hkv
    obtain ⟨a, ha, h1, h2⟩ := rrule_to_dict_key_mem r kv hkv
    simp only [rrule_to_dict_table, List.mem_cons, List.not_mem_nil, or_false] at ha
    rcases ha with rfl|rfl|rfl|rfl|rfl|rfl|rfl|rfl|rfl|rfl|rfl|rfl <;>
      (rw [← h1]; simp [allowed_keys])
  · intro hc kv hkv hkey
    obtain ⟨a, ha, h1, h2⟩ := rrule_to_dict_key_mem r kv hkv
    simp only [rrule_to_dict_table, List.mem_cons, List.not_mem_nil, or_false] at ha
    rcases ha with rfl|rfl|rfl|rfl|rfl|rfl|rfl|rfl|rfl|rfl|rfl|rfl
    all_goals simp_all
  · intro hc kv hkv hkey
    obtain ⟨a, ha, h1, h2⟩ := rrule_to_dict_key_mem r kv hkv
    simp only [rrule_to_dict_table, List.mem_cons, List.not_mem_nil, or_false] at ha
    rcases ha with rfl|rfl|rfl|rfl|rfl|rfl|rfl|rfl|rfl|rfl|rfl|rfl
    all_goals simp_all
  · intro hc kv hkv hkey
    obtain ⟨a, ha, h1, h2⟩ := rrule_to_dict_key_mem r kv hkv
    simp only [rrule_to_dict_table, List.mem_cons, List.not_mem_nil, or_false] at ha
    rcases ha with rfl|rfl|rfl|rfl|rfl|rfl|rfl|rfl|rfl|rfl|rfl|rfl
    all_goals simp_all

/-- A concrete composite model with one exclusion date, exhibiting the
serialization slip. -/
def exdateBugInput : Rruleset :=
  { rrule := [], rdate := [], exdate := [⟨0, none⟩] }

/-- Claim C8 fails on the code: at `exdateBugInput` the serializer emits
`exdates` as a one-element tuple (`JVal.tup`) wrapping the timestamp list —
the trailing comma inside the parentheses at line 203 — instead of the bare
list (`JVal.arr`) of timestamps the claim requires. -/
theorem rruleset_to_serializable_exdates_is_tuple :
    rruleset_to_serializable exdateBugInput =
      [("rrules", .arr []), ("rdates", .arr []),
       ("exdates", .tup [.arr [.str (isoformat ⟨0, none⟩)]])] := rfl
